import Mathlib

/-!
Verification of the applespi keyboard/touchpad SPI driver (applespi.c).

The development shallowly embeds the driver's pure data paths:
scancode tables, the Fn/ISO key translation (applespi_code_to_key),
the keyboard press/release diffing in applespi_got_data, the touchpad
finger filtering and reporting (report_tp_state), the LED command
builder with its CRC-16 (applespi_send_leds_cmd), and the LED queue
state machine.  Machine integers are modelled as Nat (u8/u16 values)
or Int (signed results); out-of-bounds table accesses surface as
Option.none; external kernel collaborators (input core slot
assignment, spi_async results) are oracle parameters.
-/

/-! ## Linux input key codes used by the driver -/

def KEY_ESC : Nat := 1
def KEY_1 : Nat := 2
def KEY_2 : Nat := 3
def KEY_3 : Nat := 4
def KEY_4 : Nat := 5
def KEY_5 : Nat := 6
def KEY_6 : Nat := 7
def KEY_7 : Nat := 8
def KEY_8 : Nat := 9
def KEY_9 : Nat := 10
def KEY_0 : Nat := 11
def KEY_MINUS : Nat := 12
def KEY_EQUAL : Nat := 13
def KEY_BACKSPACE : Nat := 14
def KEY_TAB : Nat := 15
def KEY_Q : Nat := 16
def KEY_W : Nat := 17
def KEY_E : Nat := 18
def KEY_R : Nat := 19
def KEY_T : Nat := 20
def KEY_Y : Nat := 21
def KEY_U : Nat := 22
def KEY_I : Nat := 23
def KEY_O : Nat := 24
def KEY_P : Nat := 25
def KEY_LEFTBRACE : Nat := 26
def KEY_RIGHTBRACE : Nat := 27
def KEY_ENTER : Nat := 28
def KEY_LEFTCTRL : Nat := 29
def KEY_A : Nat := 30
def KEY_S : Nat := 31
def KEY_D : Nat := 32
def KEY_F : Nat := 33
def KEY_G : Nat := 34
def KEY_H : Nat := 35
def KEY_J : Nat := 36
def KEY_K : Nat := 37
def KEY_L : Nat := 38
def KEY_SEMICOLON : Nat := 39
def KEY_APOSTROPHE : Nat := 40
def KEY_GRAVE : Nat := 41
def KEY_LEFTSHIFT : Nat := 42
def KEY_BACKSLASH : Nat := 43
def KEY_Z : Nat := 44
def KEY_X : Nat := 45
def KEY_C : Nat := 46
def KEY_V : Nat := 47
def KEY_B : Nat := 48
def KEY_N : Nat := 49
def KEY_M : Nat := 50
def KEY_COMMA : Nat := 51
def KEY_DOT : Nat := 52
def KEY_SLASH : Nat := 53
def KEY_RIGHTSHIFT : Nat := 54
def KEY_LEFTALT : Nat := 56
def KEY_SPACE : Nat := 57
def KEY_CAPSLOCK : Nat := 58
def KEY_F1 : Nat := 59
def KEY_F2 : Nat := 60
def KEY_F3 : Nat := 61
def KEY_F4 : Nat := 62
def KEY_F5 : Nat := 63
def KEY_F6 : Nat := 64
def KEY_F7 : Nat := 65
def KEY_F8 : Nat := 66
def KEY_F9 : Nat := 67
def KEY_F10 : Nat := 68
def KEY_F11 : Nat := 87
def KEY_F12 : Nat := 88
def KEY_102ND : Nat := 86
def KEY_RIGHTALT : Nat := 100
def KEY_HOME : Nat := 102
def KEY_UP : Nat := 103
def KEY_PAGEUP : Nat := 104
def KEY_LEFT : Nat := 105
def KEY_RIGHT : Nat := 106
def KEY_END : Nat := 107
def KEY_DOWN : Nat := 108
def KEY_PAGEDOWN : Nat := 109
def KEY_INSERT : Nat := 110
def KEY_DELETE : Nat := 111
def KEY_MUTE : Nat := 113
def KEY_VOLUMEDOWN : Nat := 114
def KEY_VOLUMEUP : Nat := 115
def KEY_SCALE : Nat := 120
def KEY_LEFTMETA : Nat := 125
def KEY_RIGHTMETA : Nat := 126
def KEY_NEXTSONG : Nat := 163
def KEY_PLAYPAUSE : Nat := 164
def KEY_PREVIOUSSONG : Nat := 165
def KEY_DASHBOARD : Nat := 204
def KEY_BRIGHTNESSDOWN : Nat := 224
def KEY_BRIGHTNESSUP : Nat := 225
def KEY_KBDILLUMDOWN : Nat := 229
def KEY_KBDILLUMUP : Nat := 230
def KEY_FN : Nat := 464
def BTN_LEFT : Nat := 272

/-! ## Driver constants (applespi.c lines 36-48) -/

def APPLESPI_PACKET_SIZE : Nat := 256
def PACKET_KEYBOARD : Nat := 288
def PACKET_TOUCHPAD : Nat := 544
def PACKET_NOTHING : Nat := 53312
def MAX_ROLLOVER : Nat := 6
def MAX_FINGERS : Nat := 6
def MAX_FINGER_ORIENTATION : Int := 16384
def APPLE_FLAG_FKEY : Nat := 1

/-! ## Scancode and translation tables (applespi.c lines 179-238) -/

/-- The driver's scancode table, `applespi_scancodes` (101 entries). -/
def applespi_scancodes : List Nat :=
  [0, 0, 0, 0,
   KEY_A, KEY_B, KEY_C, KEY_D, KEY_E, KEY_F, KEY_G, KEY_H, KEY_I, KEY_J,
   KEY_K, KEY_L, KEY_M, KEY_N, KEY_O, KEY_P, KEY_Q, KEY_R, KEY_S, KEY_T,
   KEY_U, KEY_V, KEY_W, KEY_X, KEY_Y, KEY_Z,
   KEY_1, KEY_2, KEY_3, KEY_4, KEY_5, KEY_6, KEY_7, KEY_8, KEY_9, KEY_0,
   KEY_ENTER, KEY_ESC, KEY_BACKSPACE, KEY_TAB, KEY_SPACE, KEY_MINUS,
   KEY_EQUAL, KEY_LEFTBRACE, KEY_RIGHTBRACE, KEY_BACKSLASH, 0,
   KEY_SEMICOLON, KEY_APOSTROPHE, KEY_GRAVE, KEY_COMMA, KEY_DOT, KEY_SLASH,
   KEY_CAPSLOCK,
   KEY_F1, KEY_F2, KEY_F3, KEY_F4, KEY_F5, KEY_F6, KEY_F7, KEY_F8, KEY_F9,
   KEY_F10, KEY_F11, KEY_F12, 0, 0, 0, 0, 0, 0, 0, 0, 0,
   KEY_RIGHT, KEY_LEFT, KEY_DOWN, KEY_UP,
   0, 0, 0, 0, 0, 0, 0, 0, 0, 0, 0, 0, 0, 0, 0, 0, 0, KEY_102ND]

/-- The driver's modifier-bit table, `applespi_controlcodes` (8 entries). -/
def applespi_controlcodes : List Nat :=
  [KEY_LEFTCTRL, KEY_LEFTSHIFT, KEY_LEFTALT, KEY_LEFTMETA,
   0, KEY_RIGHTSHIFT, KEY_RIGHTALT, KEY_RIGHTMETA]

/-- One entry of a key translation table (`struct applespi_key_translation`).
`from_key` (C field `from`) 0 is the table-terminating sentinel. -/
structure applespi_key_translation where
  from_key : Nat
  to_key : Nat
  flags : Nat
deriving DecidableEq, Repr

/-- The Fn translation table, `applespi_fn_codes` (entries before the sentinel). -/
def applespi_fn_codes : List applespi_key_translation :=
  [⟨KEY_BACKSPACE, KEY_DELETE, 0⟩,
   ⟨KEY_ENTER, KEY_INSERT, 0⟩,
   ⟨KEY_F1, KEY_BRIGHTNESSDOWN, APPLE_FLAG_FKEY⟩,
   ⟨KEY_F2, KEY_BRIGHTNESSUP, APPLE_FLAG_FKEY⟩,
   ⟨KEY_F3, KEY_SCALE, APPLE_FLAG_FKEY⟩,
   ⟨KEY_F4, KEY_DASHBOARD, APPLE_FLAG_FKEY⟩,
   ⟨KEY_F5, KEY_KBDILLUMDOWN, APPLE_FLAG_FKEY⟩,
   ⟨KEY_F6, KEY_KBDILLUMUP, APPLE_FLAG_FKEY⟩,
   ⟨KEY_F7, KEY_PREVIOUSSONG, APPLE_FLAG_FKEY⟩,
   ⟨KEY_F8, KEY_PLAYPAUSE, APPLE_FLAG_FKEY⟩,
   ⟨KEY_F9, KEY_NEXTSONG, APPLE_FLAG_FKEY⟩,
   ⟨KEY_F10, KEY_MUTE, APPLE_FLAG_FKEY⟩,
   ⟨KEY_F11, KEY_VOLUMEDOWN, APPLE_FLAG_FKEY⟩,
   ⟨KEY_F12, KEY_VOLUMEUP, APPLE_FLAG_FKEY⟩,
   ⟨KEY_RIGHT, KEY_END, 0⟩,
   ⟨KEY_LEFT, KEY_HOME, 0⟩,
   ⟨KEY_DOWN, KEY_PAGEDOWN, 0⟩,
   ⟨KEY_UP, KEY_PAGEUP, 0⟩]

/-- The ISO layout swap table, `apple_iso_keyboard`. -/
def apple_iso_keyboard : List applespi_key_translation :=
  [⟨KEY_GRAVE, KEY_102ND, 0⟩,
   ⟨KEY_102ND, KEY_GRAVE, 0⟩]

/-- `applespi_find_translation`: linear scan of a translation table,
stopping at the first entry whose `from` field is 0 (the sentinel),
returning the first entry whose `from` field equals the key. -/
def applespi_find_translation :
    List applespi_key_translation → Nat → Option applespi_key_translation
  | [], _ => none
  | t :: rest, key =>
    if t.from_key = 0 then none
    else if t.from_key = key then some t
    else applespi_find_translation rest key

/-- `applespi_code_to_key`: look up the raw scancode in
`applespi_scancodes` (the C code indexes the array unconditionally, so
an out-of-range `code` is an out-of-bounds read, modelled as `none`),
then apply the Fn translation when `fnmode` is non-zero, then the ISO
swap when `iso_layout` is non-zero.  `fn_pressed` is the u8 Fn flag,
tested for truthiness like the C `int`. -/
def applespi_code_to_key (fnmode iso_layout : Nat) (code : Nat)
    (fn_pressed : Nat) : Option Nat :=
  (applespi_scancodes.get? code).map (fun key0 =>
    let key1 :=
      if fnmode ≠ 0 then
        match applespi_find_translation applespi_fn_codes key0 with
        | some tr =>
          let do_translate : Bool :=
            if tr.flags &&& APPLE_FLAG_FKEY ≠ 0 then
              (fnmode == 2 && fn_pressed != 0) ||
                (fnmode == 1 && !(fn_pressed != 0))
            else fn_pressed != 0
          if do_translate then tr.to_key else key0
        | none => key0
      else key0
    if iso_layout ≠ 0 then
      match applespi_find_translation apple_iso_keyboard key1 with
      | some tr => tr.to_key
      | none => key1
    else key1)

/-- The Fn-table entry for a scancode when its base key has a flagged
(media/function-row) translation entry; `none` otherwise. -/
def flagged_fn_entry (code : Nat) : Option applespi_key_translation :=
  match applespi_scancodes.get? code with
  | none => none
  | some key =>
    match applespi_find_translation applespi_fn_codes key with
    | some t => if t.flags &&& APPLE_FLAG_FKEY ≠ 0 then some t else none
    | none => none

/-! ## Fn translation claims -/

/-- Claim C2 comparison model, from the spec's words (section 4.3): a
flagged (media/function-row) entry is applied exactly when
(mode is fkeys-first (2) and Fn is not held) or (mode is fkeys-last (1)
and Fn is held); a non-flagged entry is applied exactly when Fn is
held; with mode disabled (0) no Fn translation occurs. -/
def c2_claim_code_to_key (fnmode code fn_pressed : Nat) : Option Nat :=
  (applespi_scancodes.get? code).map (fun key =>
    if fnmode = 0 then key
    else
      match applespi_find_translation applespi_fn_codes key with
      | some tr =>
        if tr.flags &&& APPLE_FLAG_FKEY ≠ 0 then
          if (fnmode = 2 ∧ fn_pressed = 0) ∨ (fnmode = 1 ∧ fn_pressed ≠ 0)
          then tr.to_key else key
        else if fn_pressed ≠ 0 then tr.to_key else key
      | none => key)

/-- Amended claim C2 model: same as `c2_claim_code_to_key` but with the
flagged-entry polarity matching the code: a flagged entry is applied
exactly when (mode is fkeys-first (2) and Fn is held) or (mode is
fkeys-last (1) and Fn is not held). -/
def c2_amended_code_to_key (fnmode code fn_pressed : Nat) : Option Nat :=
  (applespi_scancodes.get? code).map (fun key =>
    if fnmode = 0 then key
    else
      match applespi_find_translation applespi_fn_codes key with
      | some tr =>
        if tr.flags &&& APPLE_FLAG_FKEY ≠ 0 then
          if (fnmode = 2 ∧ fn_pressed ≠ 0) ∨ (fnmode = 1 ∧ fn_pressed = 0)
          then tr.to_key else key
        else if fn_pressed ≠ 0 then tr.to_key else key
      | none => key)

/-- Claim C2 as stated is false: with fnmode = 1 (fkeys-last) and Fn
held, scancode 58 (key F1, a flagged entry), the claim's rule
translates to the media key while the code leaves F1 untouched. -/
theorem c2_counterexample :
    applespi_code_to_key 1 0 58 1 = some KEY_F1 ∧
    c2_claim_code_to_key 1 58 1 = some KEY_BRIGHTNESSDOWN ∧
    applespi_code_to_key 1 0 58 1 ≠ c2_claim_code_to_key 1 58 1 := by
  refine ⟨by decide, by decide, by decide⟩

/-- Claim C2 (amended): with ISO layout disabled, `applespi_code_to_key`
implements exactly the translation rule with the flagged polarity
(fkeys-first and Fn held) or (fkeys-last and Fn not held); non-flagged
entries apply exactly when Fn is held; mode 0 never translates. -/
theorem c2_translation_rule (fnmode code fn_pressed : Nat) :
    applespi_code_to_key fnmode 0 code fn_pressed =
      c2_amended_code_to_key fnmode code fn_pressed := by
  unfold applespi_code_to_key c2_amended_code_to_key
  cases hk : applespi_scancodes.get? code with
  | none => rfl
  | some key =>
    simp only [Option.map_some']
    rcases fnmode with _ | _ | _ | m
    · simp
    · cases ht : applespi_find_translation applespi_fn_codes key with
      | none => simp [ht]
      | some tr =>
        by_cases hf : tr.flags &&& APPLE_FLAG_FKEY ≠ 0 <;>
          by_cases hfn : fn_pressed = 0 <;>
            simp [ht, hf, hfn]
    · cases ht : applespi_find_translation applespi_fn_codes key with
      | none => simp [ht]
      | some tr =>
        by_cases hf : tr.flags &&& APPLE_FLAG_FKEY ≠ 0 <;>
          by_cases hfn : fn_pressed = 0 <;>
            simp [ht, hf, hfn]
    · cases ht : applespi_find_translation applespi_fn_codes key with
      | none => simp [ht]
      | some tr =>
        by_cases hf : tr.flags &&& APPLE_FLAG_FKEY ≠ 0 <;>
          by_cases hfn : fn_pressed = 0 <;>
            simp [ht, hf, hfn, Nat.succ_ne_zero]

/-- Claim C1: for every scancode whose base key has a flagged
(media/function-row) Fn-table entry: with fnmode 1 (fkeys-last) the
media key is returned when Fn is not held and the base key when Fn is
held; with fnmode 2 (fkeys-first) the polarity inverts; with fnmode 0
the base key is returned regardless of Fn. -/
theorem c1_flagged_fn_polarity (code : Nat) (t : applespi_key_translation)
    (h : flagged_fn_entry code = some t) (fn : Nat) (hfn : fn ≠ 0) :
    applespi_code_to_key 1 0 code 0 = some t.to_key ∧
    applespi_code_to_key 1 0 code fn = applespi_scancodes.get? code ∧
    applespi_code_to_key 2 0 code fn = some t.to_key ∧
    applespi_code_to_key 2 0 code 0 = applespi_scancodes.get? code ∧
    applespi_code_to_key 0 0 code 0 = applespi_scancodes.get? code ∧
    applespi_code_to_key 0 0 code fn = applespi_scancodes.get? code := by
  unfold flagged_fn_entry at h
  cases hk : applespi_scancodes.get? code with
  | none => rw [hk] at h; exact absurd h (by simp)
  | some key =>
    rw [hk] at h
    cases ht : applespi_find_translation applespi_fn_codes key with
    | none => simp only [ht] at h; exact absurd h (by simp)
    | some tr =>
      simp only [ht] at h
      by_cases hf : tr.flags &&& APPLE_FLAG_FKEY ≠ 0
      · rw [if_pos hf] at h
        cases h
        unfold applespi_code_to_key
        rw [hk]
        simp only [Option.map_some']
        refine ⟨?_, ?_, ?_, ?_, ?_, ?_⟩ <;> simp [ht, hf, hfn]
      · rw [if_neg hf] at h
        exact absurd h (by simp)

/-- Witness for C1 at scancode 58 (key F1) with Fn value 1. -/
theorem c1_flagged_fn_polarity_witness :
    flagged_fn_entry 58 =
      some ⟨KEY_F1, KEY_BRIGHTNESSDOWN, APPLE_FLAG_FKEY⟩ ∧
    applespi_code_to_key 1 0 58 0 = some KEY_BRIGHTNESSDOWN ∧
    applespi_code_to_key 1 0 58 1 = some KEY_F1 ∧
    applespi_code_to_key 2 0 58 1 = some KEY_BRIGHTNESSDOWN ∧
    applespi_code_to_key 2 0 58 0 = some KEY_F1 ∧
    applespi_code_to_key 0 0 58 0 = some KEY_F1 ∧
    applespi_code_to_key 0 0 58 1 = some KEY_F1 := by
  have h := c1_flagged_fn_polarity 58
    ⟨KEY_F1, KEY_BRIGHTNESSDOWN, APPLE_FLAG_FKEY⟩ (by decide) 1 (by decide)
  obtain ⟨h1, h2, h3, h4, h5, h6⟩ := h
  refine ⟨by decide, h1, ?_, h3, ?_, ?_, ?_⟩
  · rw [h2]; decide
  · rw [h4]; decide
  · rw [h5]; decide
  · rw [h6]; decide

/-! ## Keyboard state machine (applespi_got_data, keyboard branch) -/

/-- One normalized event sent to the input core. -/
inductive Event where
  | key : Nat → Nat → Event
  | mtSlot : Int → Event
  | mtToolFinger : Event
  | abs : Nat → Int → Event
  | mtSyncFrame : Event
  | syn : Event
deriving DecidableEq, Repr

/-- Decoded view of a Keyboard packet (`struct keyboard_protocol`),
restricted to the fields the driver reads. -/
structure keyboard_protocol where
  packet_type : Nat
  modifiers : Nat
  keys_pressed : List Nat
  fn_pressed : Nat
deriving DecidableEq, Repr

/-- Keyboard history carried across frames in `struct applespi_data`:
`last_keys_pressed`, `last_keys_fn_pressed` and `last_fn_pressed`. -/
structure KbHistory where
  last_keys_pressed : List Nat
  last_keys_fn_pressed : List Nat
  last_fn_pressed : Nat
deriving DecidableEq, Repr

/-- The inner `for (j...)` scan of applespi_got_data: whether a
previously tracked scancode appears in any of the current frame's
scancode slots. -/
def still_pressed_in (last_key : Nat) (cur : List Nat) : Bool :=
  cur.any (fun k => last_key == k)

/-- The release loop of applespi_got_data (lines 760-774), iterating
the per-slot pairs (tracked scancode, stored Fn state): a slot whose
scancode no longer appears in the current frame emits one release
event for the key translated with the slot's stored Fn state and has
its stored Fn state cleared to 0.  The table lookup in
`applespi_code_to_key` is unguarded here; an out-of-range tracked
scancode is an out-of-bounds read, modelled as `none`. -/
def applespi_release_loop (fnmode iso_layout : Nat) (cur : List Nat) :
    List (Nat × Nat) → Option (List Event × List Nat)
  | [] => some ([], [])
  | (k, f) :: rest =>
    match applespi_release_loop fnmode iso_layout cur rest with
    | none => none
    | some (evs, fns) =>
      if still_pressed_in k cur then some (evs, f :: fns)
      else
        match applespi_code_to_key fnmode iso_layout k f with
        | none => none
        | some key => some (Event.key key 0 :: evs, 0 :: fns)

/-- The press loop of applespi_got_data (lines 776-782), iterating the
current frame's scancode slots paired with the stored Fn states left
by the release loop: a slot whose scancode is within the table bounds
and non-zero emits one press event translated with the frame's Fn
state, and the frame's Fn state is recorded against the slot. -/
def applespi_press_loop (fnmode iso_layout frame_fn : Nat) :
    List Nat → List Nat → Option (List Event × List Nat)
  | [], _ => some ([], [])
  | _ :: _, [] => some ([], [])
  | k :: ks, f :: fns =>
    match applespi_press_loop fnmode iso_layout frame_fn ks fns with
    | none => none
    | some (evs, fns2) =>
      if k < applespi_scancodes.length ∧ 0 < k then
        match applespi_code_to_key fnmode iso_layout k frame_fn with
        | none => none
        | some key => some (Event.key key 1 :: evs, frame_fn :: fns2)
      else some (evs, f :: fns2)

/-- The modifier loop of applespi_got_data (lines 785-791): one event
per modifier bit every frame, pressed iff the bit is set. -/
def applespi_modifier_events (modifiers : Nat) : List Event :=
  (List.range 8).map (fun i =>
    Event.key (applespi_controlcodes.getD i 0)
      (if modifiers.testBit i then 1 else 0))

/-- The Fn-key edge detection of applespi_got_data (lines 794-798). -/
def applespi_fn_key_events (frame_fn last_fn : Nat) : List Event :=
  if frame_fn ≠ 0 ∧ last_fn = 0 then [Event.key KEY_FN 1]
  else if frame_fn = 0 ∧ last_fn ≠ 0 then [Event.key KEY_FN 0]
  else []

/-- The keyboard branch of applespi_got_data (lines 759-802): release
loop, press loop, modifier re-assertion, Fn edge, sync; the frame's
scancode slots are then copied verbatim into the history.  `none`
models an out-of-bounds scancode-table access. -/
def applespi_got_data_keyboard (fnmode iso_layout : Nat) (s : KbHistory)
    (kp : keyboard_protocol) : Option (List Event × KbHistory) :=
  match applespi_release_loop fnmode iso_layout kp.keys_pressed
      (s.last_keys_pressed.zip s.last_keys_fn_pressed) with
  | none => none
  | some (rel_evs, fns1) =>
    match applespi_press_loop fnmode iso_layout kp.fn_pressed
        kp.keys_pressed fns1 with
    | none => none
    | some (press_evs, fns2) =>
      some (rel_evs ++ press_evs ++ applespi_modifier_events kp.modifiers ++
              applespi_fn_key_events kp.fn_pressed s.last_fn_pressed ++
              [Event.syn],
            { last_keys_pressed := kp.keys_pressed,
              last_keys_fn_pressed := fns2,
              last_fn_pressed := kp.fn_pressed })

/-- Claim C3: the release path is NOT safe.  The history baseline is
copied verbatim from the frame (line 802), including out-of-table
scancodes, and the release loop calls applespi_code_to_key without any
bounds check (line 770).  First conjunct: from the all-zero initial
history, a Keyboard frame carrying raw scancode 101 (= table size,
outside the 101-entry table) is processed without any table overrun
and leaves 101 in the history.  Second conjunct: the next Keyboard
frame without that scancode makes the release path read
applespi_scancodes[101], out of bounds (modelled as `none`). -/
theorem c3_release_path_oob :
    (applespi_got_data_keyboard 1 0
        ⟨[0, 0, 0, 0, 0, 0], [0, 0, 0, 0, 0, 0], 0⟩
        ⟨PACKET_KEYBOARD, 0, [101, 0, 0, 0, 0, 0], 0⟩).map Prod.snd =
      some ⟨[101, 0, 0, 0, 0, 0], [0, 0, 0, 0, 0, 0], 0⟩ ∧
    applespi_scancodes.length = 101 ∧
    applespi_got_data_keyboard 1 0
        ⟨[101, 0, 0, 0, 0, 0], [0, 0, 0, 0, 0, 0], 0⟩
        ⟨PACKET_KEYBOARD, 0, [0, 0, 0, 0, 0, 0], 0⟩ = none := by
  refine ⟨by decide, by decide, by decide⟩

/-- Characterization of the release loop: on success, it emits exactly
one release event per slot whose tracked scancode is absent from the
current frame, keyed by the translation of the tracked scancode with
the slot's stored Fn state, and clears exactly those slots' stored Fn
states to 0. -/
theorem applespi_release_loop_spec (fnmode iso_layout : Nat)
    (cur : List Nat) :
    ∀ (pairs : List (Nat × Nat)) (evs : List Event) (fns : List Nat),
      applespi_release_loop fnmode iso_layout cur pairs = some (evs, fns) →
      evs = pairs.filterMap (fun p =>
          if still_pressed_in p.1 cur then none
          else some (Event.key
            ((applespi_code_to_key fnmode iso_layout p.1 p.2).getD 0) 0)) ∧
      fns = pairs.map (fun p =>
          if still_pressed_in p.1 cur then p.2 else 0) := by
  intro pairs
  induction pairs with
  | nil =>
    intro evs fns h
    simp only [applespi_release_loop, Option.some.injEq, Prod.mk.injEq] at h
    simp [h.1, h.2]
  | cons p rest ih =>
    intro evs fns h
    obtain ⟨k, f⟩ := p
    rw [applespi_release_loop] at h
    cases hr : applespi_release_loop fnmode iso_layout cur rest with
    | none => rw [hr] at h; exact absurd h (by simp)
    | some pr =>
      obtain ⟨evs0, fns0⟩ := pr
      rw [hr] at h
      obtain ⟨he, hf⟩ := ih evs0 fns0 hr
      by_cases hs : still_pressed_in k cur = true
      · simp only [hs, if_true, Option.some.injEq, Prod.mk.injEq] at h
        simp [← h.1, ← h.2, hs, he, hf]
      · simp only [hs, if_false, Bool.false_eq_true] at h
        cases hc : applespi_code_to_key fnmode iso_layout k f with
        | none => rw [hc] at h; exact absurd h (by simp)
        | some key =>
          rw [hc] at h
          simp only [Option.some.injEq, Prod.mk.injEq] at h
          simp [← h.1, ← h.2, hs, hc, he, hf]

/-- Claim C4: on a processed Keyboard frame, each previously tracked
scancode absent from the frame's slots yields exactly one release
event (these come first in the emitted event list, in slot order),
keyed by the translation under the Fn state stored for that slot at
press time, and that slot's stored Fn state is cleared to 0 by the
release loop; the frame's scancode slots verbatim become the new
history baseline. -/
theorem c4_release_events_and_baseline (fnmode iso_layout : Nat)
    (s : KbHistory) (kp : keyboard_protocol) (evs : List Event)
    (s2 : KbHistory)
    (h : applespi_got_data_keyboard fnmode iso_layout s kp =
      some (evs, s2)) :
    s2.last_keys_pressed = kp.keys_pressed ∧
    (evs.take ((s.last_keys_pressed.zip s.last_keys_fn_pressed).filterMap
        (fun p =>
          if still_pressed_in p.1 kp.keys_pressed then none
          else some (Event.key
            ((applespi_code_to_key fnmode iso_layout p.1 p.2).getD 0)
            0))).length =
      (s.last_keys_pressed.zip s.last_keys_fn_pressed).filterMap
        (fun p =>
          if still_pressed_in p.1 kp.keys_pressed then none
          else some (Event.key
            ((applespi_code_to_key fnmode iso_layout p.1 p.2).getD 0)
            0))) ∧
    (∀ rel_evs fns1,
      applespi_release_loop fnmode iso_layout kp.keys_pressed
          (s.last_keys_pressed.zip s.last_keys_fn_pressed) =
        some (rel_evs, fns1) →
      fns1 = (s.last_keys_pressed.zip s.last_keys_fn_pressed).map
        (fun p =>
          if still_pressed_in p.1 kp.keys_pressed then p.2 else 0)) := by
  unfold applespi_got_data_keyboard at h
  split at h
  next hr => exact absurd h (by simp)
  next rel_evs fns1 hr =>
    split at h
    next hp => exact absurd h (by simp)
    next press_evs fns2 hp =>
      simp only [Option.some.injEq, Prod.mk.injEq] at h
      obtain ⟨hevs, hs2⟩ := h
      obtain ⟨hrel, hfns⟩ := applespi_release_loop_spec fnmode iso_layout
        kp.keys_pressed _ rel_evs fns1 hr
      refine ⟨?_, ?_, ?_⟩
      · rw [← hs2]
      · rw [← hevs, ← hrel, List.append_assoc, List.append_assoc,
          List.append_assoc]
        exact List.take_left rel_evs _
      · intro rel_evs2 fns1b hr2
        rw [hr2] at hr
        cases hr
        exact hfns

/-- Witness for C4: history tracks scancodes 4 (pressed with Fn held)
and 5; the next frame keeps only 5, so exactly one release event for
key 30 (KEY_A) opens the event list, and the frame's slots become the
new baseline. -/
theorem c4_release_events_and_baseline_witness :
    ([Event.key 30 0, Event.key 48 1, Event.key 29 0, Event.key 42 0,
        Event.key 56 0, Event.key 125 0, Event.key 0 0, Event.key 54 0,
        Event.key 100 0, Event.key 126 0, Event.syn].take 1 =
      [Event.key 30 0]) ∧
    (⟨[5, 0, 0, 0, 0, 0], [0, 0, 0, 0, 0, 0], 0⟩ :
        KbHistory).last_keys_pressed = [5, 0, 0, 0, 0, 0] := by
  have h := c4_release_events_and_baseline 1 0
    ⟨[4, 5, 0, 0, 0, 0], [1, 0, 0, 0, 0, 0], 0⟩
    ⟨PACKET_KEYBOARD, 0, [5, 0, 0, 0, 0, 0], 0⟩
    [Event.key 30 0, Event.key 48 1, Event.key 29 0, Event.key 42 0,
      Event.key 56 0, Event.key 125 0, Event.key 0 0, Event.key 54 0,
      Event.key 100 0, Event.key 126 0, Event.syn]
    ⟨[5, 0, 0, 0, 0, 0], [0, 0, 0, 0, 0, 0], 0⟩
    (by decide)
  exact ⟨h.2.1, h.1⟩

/-! ## CRC-16 and the LED command (applespi_send_leds_cmd) -/

/-- One shift step of the reflected CRC-16 (polynomial 0x8005,
reflected 0xA001), as in the kernel's crc16. -/
def crc16_shift (crc : Nat) : Nat :=
  if crc % 2 = 1 then (crc / 2) ^^^ 0xA001 else crc / 2

/-- Process one byte of input into the CRC (kernel crc16_byte). -/
def crc16_byte (crc b : Nat) : Nat :=
  crc16_shift^[8] (crc ^^^ (b % 256))

/-- Kernel `crc16(crc, buf, len)` over a byte list. -/
def crc16 (crc : Nat) (bytes : List Nat) : Nat :=
  bytes.foldl crc16_byte crc

/-- The fixed 256-byte caps-lock LED command template
(`applespi_caps_lock_led_cmd`, applespi.c line 285). -/
def applespi_caps_lock_led_cmd : List Nat :=
  [0x40, 0x01, 0, 0, 0, 0, 0x0C, 0, 0x51, 0x01, 0, 0,
   0x02, 0, 0x02, 0, 0x01, 0, 0, 0] ++
  List.replicate 234 0 ++ [0x66, 0x6A]

/-- The LED command buffer built by applespi_send_leds_cmd (lines
587-595): copy the template, poke the sequence-counter low byte into
offset 11 and the on/off value (2 = on, 0 = off) into offset 17, then
write the CRC-16 (seed 0) of the 10 bytes at offsets 8..17
little-endian into offsets 18 and 19. -/
def applespi_led_cmd_buffer (led_msg_cntr : Nat)
    (have_cl_led_on : Bool) : List Nat :=
  let buf := applespi_caps_lock_led_cmd
  let buf := buf.set 11 (led_msg_cntr % 256)
  let buf := buf.set 17 (if have_cl_led_on then 2 else 0)
  let crc := crc16 0 ((buf.drop 8).take 10)
  let buf := buf.set 18 (crc % 256)
  buf.set 19 (crc / 256)

set_option maxRecDepth 8000 in
/-- Claim C5: for every sequence value and on/off flag, the built LED
command has the counter's low byte at offset 11, 2 (on) or 0 (off) at
offset 17, and offsets 18..19 hold, little-endian, the CRC-16 (seed 0)
of bytes 8..17 of that same final buffer (round-trip). -/
theorem c5_led_cmd_fields_and_crc (s : Nat) (led_on : Bool) :
    (applespi_led_cmd_buffer s led_on).getD 11 0 = s % 256 ∧
    (applespi_led_cmd_buffer s led_on).getD 17 0 =
      (if led_on then 2 else 0) ∧
    (applespi_led_cmd_buffer s led_on).getD 18 0 +
        256 * (applespi_led_cmd_buffer s led_on).getD 19 0 =
      crc16 0 (((applespi_led_cmd_buffer s led_on).drop 8).take 10) := by
  cases led_on <;>
    simp [applespi_led_cmd_buffer, applespi_caps_lock_led_cmd,
      List.replicate, List.set, List.getD, Nat.mod_add_div]

/-! ## LED command queue (applespi_send_leds_cmd / applespi_set_leds /
applespi_async_write_complete) -/

/-- The LED-queue fields of `struct applespi_data`:
`want_cl_led_on`, `have_cl_led_on`, `led_msg_cntr`, `led_msg_queued`
(all mutated under `led_msg_lock`). -/
structure LedState where
  want_cl_led_on : Bool
  have_cl_led_on : Bool
  led_msg_cntr : Nat
  led_msg_queued : Bool
deriving DecidableEq, Repr

/-- applespi_send_leds_cmd (lines 572-611): if the desired value
equals the last-sent value, or a send is already queued, do nothing;
otherwise record desired as sent, build the command from the current
counter (post-incremented), and try to queue it asynchronously.
`spi_sts` is the external spi_async result: on 0 the message is queued
(the returned list holds the command put on the wire) and the
in-flight flag is set; on failure nothing is queued and the flag stays
clear.  Returns (new state, commands queued, C return value). -/
def applespi_send_leds_cmd (spi_sts : Int) (s : LedState) :
    LedState × List (List Nat) × Int :=
  if s.want_cl_led_on == s.have_cl_led_on || s.led_msg_queued then
    (s, [], 0)
  else
    let s1 : LedState :=
      { s with have_cl_led_on := s.want_cl_led_on,
               led_msg_cntr := s.led_msg_cntr + 1 }
    let cmd := applespi_led_cmd_buffer s.led_msg_cntr s.want_cl_led_on
    if spi_sts = 0 then
      ({ s1 with led_msg_queued := true }, [cmd], 0)
    else
      (s1, [], spi_sts)

/-- applespi_async_write_complete (lines 557-570): clear the in-flight
flag, then re-run applespi_send_leds_cmd. -/
def applespi_async_write_complete (spi_sts : Int) (s : LedState) :
    LedState × List (List Nat) × Int :=
  applespi_send_leds_cmd spi_sts { s with led_msg_queued := false }

/-- applespi_set_leds (lines 613-627): record the desired value, then
run applespi_send_leds_cmd, all under the lock. -/
def applespi_set_leds (spi_sts : Int) (capslock_on : Bool)
    (s : LedState) : LedState × List (List Nat) × Int :=
  applespi_send_leds_cmd spi_sts { s with want_cl_led_on := capslock_on }

/-- An externally triggered LED-queue operation: a request from the
input core (EV_LED) or an asynchronous write completion. -/
inductive LedOp where
  | request : Bool → LedOp
  | complete : LedOp
deriving DecidableEq, Repr

/-- Run a sequence of LED-queue operations (all spi_async calls
succeeding), counting the total number of commands actually queued. -/
def led_run (s : LedState) : List LedOp → LedState × Nat
  | [] => (s, 0)
  | op :: rest =>
    let r :=
      match op with
      | LedOp.request b => applespi_set_leds 0 b s
      | LedOp.complete => applespi_async_write_complete 0 s
    let r2 := led_run r.1 rest
    (r2.1, r.2.1.length + r2.2)

/-- Claim C6: at most one LED send is ever in flight.  A request whose
desired value equals the last-sent value only updates the desired
value and initiates no send; so does any request arriving while a send
is in flight; no send is ever initiated while the in-flight flag is
set; and in the scenario where a send of `false` is in flight and two
rapid request(true) calls arrive, exactly one additional send happens,
after the in-flight send completes (2 sends in total, not 3). -/
theorem c6_led_queue_single_in_flight :
    (∀ (sts : Int) (s : LedState),
      applespi_set_leds sts s.have_cl_led_on s =
        ({ s with want_cl_led_on := s.have_cl_led_on }, [], 0)) ∧
    (∀ (sts : Int) (s : LedState) (b : Bool), s.led_msg_queued = true →
      applespi_set_leds sts b s =
        ({ s with want_cl_led_on := b }, [], 0)) ∧
    (∀ (sts : Int) (s : LedState), s.led_msg_queued = true →
      (applespi_send_leds_cmd sts s).2.1 = []) ∧
    led_run ⟨true, true, 0, false⟩
        [LedOp.request false, LedOp.request true, LedOp.request true] =
      (⟨true, false, 1, true⟩, 1) ∧
    led_run ⟨true, true, 0, false⟩
        [LedOp.request false, LedOp.request true, LedOp.request true,
         LedOp.complete, LedOp.complete] =
      (⟨true, true, 2, false⟩, 2) := by
  refine ⟨?_, ?_, ?_, by decide, by decide⟩
  · intro sts s
    unfold applespi_set_leds applespi_send_leds_cmd
    simp
  · intro sts s b h
    unfold applespi_set_leds applespi_send_leds_cmd
    simp [h]
  · intro sts s h
    unfold applespi_send_leds_cmd
    simp [h]

/-- Witness for C6: a request(true) arriving while a send is in flight
is a pure desired-value update. -/
theorem c6_led_queue_single_in_flight_witness :
    applespi_set_leds 0 true ⟨false, false, 5, true⟩ =
      (⟨true, false, 5, true⟩, [], 0) := by
  have h := c6_led_queue_single_in_flight
  exact h.2.1 0 ⟨false, false, 5, true⟩ true rfl

/-- Claim C10: the send path records desired-as-sent before queueing;
when spi_async fails (non-zero result), the in-flight flag stays
clear, nothing is put on the wire, but `have_cl_led_on` keeps the new
value and the counter its increment, so a later request for the same
desired value is a no-op and the failed command is never re-issued:
the state is not rolled back on this error. -/
theorem c10_led_send_failure_not_rolled_back (sts : Int) (s : LedState)
    (hw : s.want_cl_led_on ≠ s.have_cl_led_on)
    (hq : s.led_msg_queued = false) (hsts : sts ≠ 0) :
    applespi_send_leds_cmd sts s =
      ({ s with have_cl_led_on := s.want_cl_led_on,
                led_msg_cntr := s.led_msg_cntr + 1 }, [], sts) ∧
    (∀ sts2 : Int,
      applespi_set_leds sts2 s.want_cl_led_on
          { s with have_cl_led_on := s.want_cl_led_on,
                   led_msg_cntr := s.led_msg_cntr + 1 } =
        ({ s with want_cl_led_on := s.want_cl_led_on,
                  have_cl_led_on := s.want_cl_led_on,
                  led_msg_cntr := s.led_msg_cntr + 1 }, [], 0)) := by
  constructor
  · unfold applespi_send_leds_cmd
    simp [hw, hq, hsts]
  · intro sts2
    unfold applespi_set_leds applespi_send_leds_cmd
    simp

/-- Witness for C10: a failed send (spi_async result -5) from desired
on / sent off / idle. -/
theorem c10_led_send_failure_not_rolled_back_witness :
    applespi_send_leds_cmd (-5) ⟨true, false, 0, false⟩ =
      (⟨true, true, 1, false⟩, [], -5) ∧
    applespi_set_leds 0 true ⟨true, true, 1, false⟩ =
      (⟨true, true, 1, false⟩, [], 0) := by
  have h := c10_led_send_failure_not_rolled_back (-5)
    ⟨true, false, 0, false⟩ (by decide) rfl (by decide)
  exact ⟨h.1, h.2 0⟩

/-! ## Touchpad reporting (report_tp_state / report_finger_data) -/

/-- One finger sample (`struct tp_finger`); fields hold the raw
little-endian u16 values. -/
structure tp_finger where
  origin : Nat
  abs_x : Nat
  abs_y : Nat
  rel_x : Nat
  rel_y : Nat
  tool_major : Nat
  tool_minor : Nat
  orientation : Nat
  touch_major : Nat
  touch_minor : Nat
  pressure : Nat
  multi : Nat
deriving DecidableEq, Repr

/-- The all-zero finger sample. -/
def tp_finger.zero : tp_finger := ⟨0, 0, 0, 0, 0, 0, 0, 0, 0, 0, 0, 0⟩

/-- `raw2int`: 16-bit little-endian value reinterpreted as a signed
short (lifted from the BCM5974 driver). -/
def raw2int (x : Nat) : Int :=
  if x % 65536 < 32768 then (x % 65536 : Int) else (x % 65536 : Int) - 65536

/-- Per-model touchpad calibration (`struct applespi_tp_info`). -/
structure applespi_tp_info where
  x_min : Int
  x_max : Int
  y_min : Int
  y_max : Int
deriving DecidableEq, Repr

/-- Calibration constants for MacBookPro13,1 / 13,2 (line 242). -/
def applespi_macbookpro131_info : applespi_tp_info :=
  ⟨-6243, 6749, -170, 7685⟩

/-- Calibration constants for MacBookPro13,3 (line 243). -/
def applespi_macbookpro133_info : applespi_tp_info :=
  ⟨-7456, 7976, -163, 9283⟩

/-- Generic fallback calibration constants (line 245). -/
def applespi_default_info : applespi_tp_info :=
  ⟨-4828, 5345, -203, 6803⟩

/-- Decoded view of a Touchpad packet (`struct touchpad_protocol`),
restricted to the fields the driver reads. -/
structure touchpad_protocol where
  packet_type : Nat
  number_of_fingers : Nat
  clicked : Nat
  fingers : List tp_finger
deriving DecidableEq, Repr

/-- The filter loop of report_tp_state (lines 682-689): walk the raw
finger array in order, skip samples whose touch-major axis is zero,
and record for each remaining sample the position
(raw x, y_min + y_max - raw y). -/
def report_tp_state_pos (tp_info : applespi_tp_info) :
    List tp_finger → List (Int × Int)
  | [] => []
  | f :: rest =>
    if raw2int f.touch_major = 0 then report_tp_state_pos tp_info rest
    else (raw2int f.abs_x,
          tp_info.y_min + tp_info.y_max - raw2int f.abs_y) ::
         report_tp_state_pos tp_info rest

/-- report_finger_data (lines 652-671): the events emitted for one
tracking slot: slot select, tool state, doubled touch/tool ellipse
axes, orientation as MAX_FINGER_ORIENTATION minus the raw value, and
the position. -/
def report_finger_data (slot : Int) (pos : Int × Int) (f : tp_finger) :
    List Event :=
  [Event.mtSlot slot, Event.mtToolFinger,
   Event.abs 48 (raw2int f.touch_major * 2),
   Event.abs 49 (raw2int f.touch_minor * 2),
   Event.abs 50 (raw2int f.tool_major * 2),
   Event.abs 51 (raw2int f.tool_minor * 2),
   Event.abs 52 (MAX_FINGER_ORIENTATION - raw2int f.orientation),
   Event.abs 53 pos.1,
   Event.abs 54 pos.2]

/-- report_tp_state (lines 673-702): filter the finger array, let the
input core assign tracking slots (`slots` is the oracle standing for
input_mt_assign_slots), then for each filtered index i report slot
`slots[i]` with position `pos[i]` but geometry taken from the RAW
array entry `t.fingers[i]` (exactly as the C code does), followed by
the frame-sync event and the click button state.  Returns the events
and the recorded position array. -/
def report_tp_state (tp_info : applespi_tp_info) (slots : List Int)
    (t : touchpad_protocol) : List Event × List (Int × Int) :=
  let pos := report_tp_state_pos tp_info t.fingers
  let n := pos.length
  let finger_evs := (List.range n).flatMap (fun i =>
    report_finger_data (slots.getD i 0) (pos.getD i (0, 0))
      (t.fingers.getD i tp_finger.zero))
  (finger_evs ++
     [Event.mtSyncFrame, Event.key BTN_LEFT t.clicked, Event.syn],
   pos)

/-- Claim C7: the geometry reported per active slot does NOT belong to
that slot's filtered finger when inactive samples precede active ones.
With finger 0 inactive (touch-major 0, tool-major 3) and finger 1
active (touch-major 4, tool-major 6, position 100/200), the single
emitted finger block carries the position of the active finger 1 but
the geometry of the RAW array entry 0: doubled touch-major 0, not the
8 the claim requires. -/
theorem c7_geometry_uses_raw_index :
    (report_tp_state applespi_default_info [3, 0, 0, 0, 0, 0]
        ⟨PACKET_TOUCHPAD, 1, 1,
         [⟨0, 999, 888, 0, 0, 3, 0, 0, 0, 0, 0, 0⟩,
          ⟨0, 100, 200, 0, 0, 6, 7, 100, 4, 5, 0, 0⟩,
          tp_finger.zero, tp_finger.zero, tp_finger.zero,
          tp_finger.zero]⟩).1 =
      [Event.mtSlot 3, Event.mtToolFinger,
       Event.abs 48 0, Event.abs 49 0, Event.abs 50 6, Event.abs 51 0,
       Event.abs 52 16384, Event.abs 53 100, Event.abs 54 6400,
       Event.mtSyncFrame, Event.key BTN_LEFT 1, Event.syn] ∧
    Event.abs 48 8 ∉
      (report_tp_state applespi_default_info [3, 0, 0, 0, 0, 0]
        ⟨PACKET_TOUCHPAD, 1, 1,
         [⟨0, 999, 888, 0, 0, 3, 0, 0, 0, 0, 0, 0⟩,
          ⟨0, 100, 200, 0, 0, 6, 7, 100, 4, 5, 0, 0⟩,
          tp_finger.zero, tp_finger.zero, tp_finger.zero,
          tp_finger.zero]⟩).1 ∧
    (report_tp_state applespi_default_info [3, 0, 0, 0, 0, 0]
        ⟨PACKET_TOUCHPAD, 1, 1,
         [⟨0, 999, 888, 0, 0, 3, 0, 0, 0, 0, 0, 0⟩,
          ⟨0, 100, 200, 0, 0, 6, 7, 100, 4, 5, 0, 0⟩,
          tp_finger.zero, tp_finger.zero, tp_finger.zero,
          tp_finger.zero]⟩).2 = [(100, 6400)] := by
  refine ⟨by decide, by decide, by decide⟩

/-- Claim C8: the recorded positions are exactly, for each finger
sample with non-zero touch-major axis in original order, X = the raw
absolute X and Y = y_min + y_max - raw absolute Y, with the per-model
calibration constants as in the source. -/
theorem c8_position_transform (tp_info : applespi_tp_info)
    (slots : List Int) (t : touchpad_protocol) :
    (report_tp_state tp_info slots t).2 =
      (t.fingers.filter (fun f => raw2int f.touch_major != 0)).map
        (fun f => (raw2int f.abs_x,
          tp_info.y_min + tp_info.y_max - raw2int f.abs_y)) ∧
    applespi_default_info = ⟨-4828, 5345, -203, 6803⟩ ∧
    applespi_macbookpro131_info = ⟨-6243, 6749, -170, 7685⟩ ∧
    applespi_macbookpro133_info = ⟨-7456, 7976, -163, 9283⟩ := by
  have hpos : ∀ l : List tp_finger, report_tp_state_pos tp_info l =
      (l.filter (fun f => raw2int f.touch_major != 0)).map
        (fun f => (raw2int f.abs_x,
          tp_info.y_min + tp_info.y_max - raw2int f.abs_y)) := by
    intro l
    induction l with
    | nil => rfl
    | cons f rest ih =>
      by_cases h : raw2int f.touch_major = 0
      · simp [report_tp_state_pos, h, ih, List.filter_cons]
      · simp [report_tp_state_pos, h, ih, List.filter_cons]
  exact ⟨by simp [report_tp_state, hpos], rfl, rfl, rfl⟩

/-! ## Packet dispatch (applespi_got_data) -/

/-- Read a little-endian u16 out of a byte buffer. -/
def read_le16 (bytes : List Nat) (off : Nat) : Nat :=
  bytes.getD off 0 % 256 + 256 * (bytes.getD (off + 1) 0 % 256)

/-- Decode the keyboard fields from a received 256-byte packet, per
the layout of `struct keyboard_protocol`: type tag at offset 0,
modifiers at 17, the six scancode slots at 19..24, Fn flag at 25. -/
def decode_keyboard_protocol (bytes : List Nat) : keyboard_protocol :=
  { packet_type := read_le16 bytes 0,
    modifiers := bytes.getD 17 0 % 256,
    keys_pressed := (List.range 6).map (fun i => bytes.getD (19 + i) 0 % 256),
    fn_pressed := bytes.getD 25 0 % 256 }

/-- Decode one `struct tp_finger` (14 le16 fields, 28 bytes) at a
byte offset. -/
def decode_tp_finger (bytes : List Nat) (off : Nat) : tp_finger :=
  { origin := read_le16 bytes off,
    abs_x := read_le16 bytes (off + 2),
    abs_y := read_le16 bytes (off + 4),
    rel_x := read_le16 bytes (off + 6),
    rel_y := read_le16 bytes (off + 8),
    tool_major := read_le16 bytes (off + 10),
    tool_minor := read_le16 bytes (off + 12),
    orientation := read_le16 bytes (off + 14),
    touch_major := read_le16 bytes (off + 16),
    touch_minor := read_le16 bytes (off + 18),
    pressure := read_le16 bytes (off + 24),
    multi := read_le16 bytes (off + 26) }

/-- Decode the touchpad fields from a received 256-byte packet, per
the layout of `struct touchpad_protocol`: type tag at offset 0, finger
count at 6, click flag at 17, the six finger records from offset 64. -/
def decode_touchpad_protocol (bytes : List Nat) : touchpad_protocol :=
  { packet_type := read_le16 bytes 0,
    number_of_fingers := bytes.getD 6 0 % 256,
    clicked := bytes.getD 17 0 % 256,
    fingers := (List.range 6).map
      (fun i => decode_tp_finger bytes (64 + 28 * i)) }

/-- The per-device state mutated by applespi_got_data: the keyboard
history and the touch position scratch array. -/
structure applespi_state where
  kb : KbHistory
  pos : List (Int × Int)
deriving DecidableEq, Repr

/-- applespi_got_data (lines 748-812): classify the received packet by
its 16-bit type tag; `PACKET_NOTHING` returns immediately;
`PACKET_KEYBOARD` runs the keyboard press/release diffing;
`PACKET_TOUCHPAD` runs the touchpad reporting; any other tag does
nothing (at most a debug log).  `slots` is the oracle for the input
core's slot assignment; `none` models an out-of-bounds scancode-table
access on the keyboard path. -/
def applespi_got_data (fnmode iso_layout : Nat) (slots : List Int)
    (s : applespi_state) (bytes : List Nat) :
    Option (List Event × applespi_state) :=
  let kp := decode_keyboard_protocol bytes
  if kp.packet_type = PACKET_NOTHING then some ([], s)
  else if kp.packet_type = PACKET_KEYBOARD then
    match applespi_got_data_keyboard fnmode iso_layout s.kb kp with
    | none => none
    | some (evs, kb2) => some (evs, { s with kb := kb2 })
  else if kp.packet_type = PACKET_TOUCHPAD then
    let t := decode_touchpad_protocol bytes
    let r := report_tp_state applespi_default_info slots t
    some (r.1, { s with pos := r.2 })
  else some ([], s)

/-- Claim C9: a received packet whose type tag is neither the Keyboard
tag (288) nor the Touchpad tag (544) — including the Nothing tag
(53312) and any unrecognized tag — emits no events and leaves the
whole state (keyboard history and touch positions) unchanged. -/
theorem c9_non_kb_tp_packets_inert (fnmode iso_layout : Nat)
    (slots : List Int) (s : applespi_state) (bytes : List Nat)
    (hk : read_le16 bytes 0 ≠ PACKET_KEYBOARD)
    (ht : read_le16 bytes 0 ≠ PACKET_TOUCHPAD) :
    applespi_got_data fnmode iso_layout slots s bytes = some ([], s) := by
  unfold applespi_got_data
  by_cases hn : (decode_keyboard_protocol bytes).packet_type =
      PACKET_NOTHING
  · simp [hn]
  · have hk2 : (decode_keyboard_protocol bytes).packet_type ≠
        PACKET_KEYBOARD := hk
    have ht2 : (decode_keyboard_protocol bytes).packet_type ≠
        PACKET_TOUCHPAD := ht
    simp [hn, hk2, ht2]

/-- Witness for C9: a 256-byte Nothing packet (tag bytes 0x40 0xD0,
53312 little-endian) against a non-trivial state. -/
theorem c9_non_kb_tp_packets_inert_witness :
    applespi_got_data 1 0 [0, 1, 2, 3, 4, 5]
        ⟨⟨[4, 0, 0, 0, 0, 0], [1, 0, 0, 0, 0, 0], 1⟩, [(3, 4)]⟩
        (0x40 :: 0xD0 :: List.replicate 254 7) =
      some ([], ⟨⟨[4, 0, 0, 0, 0, 0], [1, 0, 0, 0, 0, 0], 1⟩,
        [(3, 4)]⟩) := by
  have h := c9_non_kb_tp_packets_inert 1 0 [0, 1, 2, 3, 4, 5]
    ⟨⟨[4, 0, 0, 0, 0, 0], [1, 0, 0, 0, 0, 0], 1⟩, [(3, 4)]⟩
    (0x40 :: 0xD0 :: List.replicate 254 7) (by decide) (by decide)
  exact h
